import Mathlib

/-!
# transform-file-server: the request handler and its content holder

A shallow embedding of `main.go`: the in-memory content holder
(`inMemContents`), the two header writers, `serveContents`, the function
`getHttpServer` registers for "/" and the mux it installs, together with
models of the Go library pieces they rely on (`net/http` headers, response
writer and `ServeMux`, `crypto/md5` with its FIPS 140-only mode,
`encoding/base64`, `strconv.FormatInt`).
-/

/-! ## crypto/md5 (RFC 1321) -/

namespace md5

/-- Per-round left-rotation amounts of RFC 1321. -/
def S : List Nat :=
  [7, 12, 17, 22, 7, 12, 17, 22, 7, 12, 17, 22, 7, 12, 17, 22,
   5, 9, 14, 20, 5, 9, 14, 20, 5, 9, 14, 20, 5, 9, 14, 20,
   4, 11, 16, 23, 4, 11, 16, 23, 4, 11, 16, 23, 4, 11, 16, 23,
   6, 10, 15, 21, 6, 10, 15, 21, 6, 10, 15, 21, 6, 10, 15, 21]

/-- The sine table of RFC 1321: entry i is the integer part of 2^32 * |sin (i + 1)|. -/
def K : List Nat :=
  [0xd76aa478, 0xe8c7b756, 0x242070db, 0xc1bdceee,
   0xf57c0faf, 0x4787c62a, 0xa8304613, 0xfd469501,
   0x698098d8, 0x8b44f7af, 0xffff5bb1, 0x895cd7be,
   0x6b901122, 0xfd987193, 0xa679438e, 0x49b40821,
   0xf61e2562, 0xc040b340, 0x265e5a51, 0xe9b6c7aa,
   0xd62f105d, 0x02441453, 0xd8a1e681, 0xe7d3fbc8,
   0x21e1cde6, 0xc33707d6, 0xf4d50d87, 0x455a14ed,
   0xa9e3e905, 0xfcefa3f8, 0x676f02d9, 0x8d2a4c8a,
   0xfffa3942, 0x8771f681, 0x6d9d6122, 0xfde5380c,
   0xa4beea44, 0x4bdecfa9, 0xf6bb4b60, 0xbebfbc70,
   0x289b7ec6, 0xeaa127fa, 0xd4ef3085, 0x04881d05,
   0xd9d4d039, 0xe6db99e5, 0x1fa27cf8, 0xc4ac5665,
   0xf4292244, 0x432aff97, 0xab9423a7, 0xfc93a039,
   0x655b59c3, 0x8f0ccc92, 0xffeff47d, 0x85845dd1,
   0x6fa87e4f, 0xfe2ce6e0, 0xa3014314, 0x4e0811a1,
   0xf7537e82, 0xbd3af235, 0x2ad7d2bb, 0xeb86d391]

/-- Bitwise complement of a 32-bit word. -/
def not32 (x : Nat) : Nat := x ^^^ 0xffffffff

/-- Left rotation of a 32-bit word by `s` bits (0 < s < 32). -/
def rotl (x s : Nat) : Nat := ((x <<< s) ||| (x >>> (32 - s))) % 2 ^ 32

/-- The four chaining words A, B, C, D, each kept below 2^32. -/
structure Digest where
  a : Nat
  b : Nat
  c : Nat
  d : Nat
deriving DecidableEq, Repr

/-- Initial chaining value of RFC 1321. -/
def init : Digest := ⟨0x67452301, 0xefcdab89, 0x98badcfe, 0x10325476⟩

/-- Little-endian 32-bit word of four bytes. -/
def word (b0 b1 b2 b3 : UInt8) : Nat :=
  b0.toNat + 2 ^ 8 * b1.toNat + 2 ^ 16 * b2.toNat + 2 ^ 24 * b3.toNat

/-- The little-endian words of a block of bytes (a trailing group of fewer
than four bytes is dropped; blocks are always 64 bytes long). -/
def words : List UInt8 → List Nat
  | b0 :: b1 :: b2 :: b3 :: rest => word b0 b1 b2 b3 :: words rest
  | _ => []

/-- The four bytes of a 32-bit word, least significant first. -/
def le32 (w : Nat) : List UInt8 :=
  [UInt8.ofNat (w % 256), UInt8.ofNat (w / 2 ^ 8 % 256),
   UInt8.ofNat (w / 2 ^ 16 % 256), UInt8.ofNat (w / 2 ^ 24 % 256)]

/-- Operation number `i` (0 ≤ i < 64) of the compression function on message words `M`. -/
def step (M : List Nat) (st : Digest) (i : Nat) : Digest :=
  let f :=
    if i < 16 then (st.b &&& st.c) ||| (not32 st.b &&& st.d)
    else if i < 32 then (st.d &&& st.b) ||| (not32 st.d &&& st.c)
    else if i < 48 then st.b ^^^ st.c ^^^ st.d
    else st.c ^^^ (st.b ||| not32 st.d)
  let g :=
    if i < 16 then i
    else if i < 32 then (5 * i + 1) % 16
    else if i < 48 then (3 * i + 5) % 16
    else (7 * i) % 16
  let x := (f + st.a + K.getD i 0 + M.getD g 0) % 2 ^ 32
  ⟨st.d, (st.b + rotl x (S.getD i 0)) % 2 ^ 32, st.b, st.c⟩

/-- Compression of one 64-byte block into the chaining value. -/
def block (st : Digest) (chunk : List UInt8) : Digest :=
  let r := (List.range 64).foldl (step (words chunk)) st
  ⟨(st.a + r.a) % 2 ^ 32, (st.b + r.b) % 2 ^ 32, (st.c + r.c) % 2 ^ 32, (st.d + r.d) % 2 ^ 32⟩

/-- Padding of RFC 1321: a 0x80 byte, zero bytes up to 56 modulo 64, then the
bit length of the message as a 64-bit little-endian integer. -/
def pad (msg : List UInt8) : List UInt8 :=
  let n := msg.length
  let bits := (8 * n) % 2 ^ 64
  msg ++ [0x80] ++ List.replicate ((55 + 64 - n % 64) % 64) 0
    ++ le32 (bits % 2 ^ 32) ++ le32 (bits / 2 ^ 32)

/-- Folds `block` over the successive 64-byte blocks of `msg`, at most `fuel` of them. -/
def blocks : Nat → Digest → List UInt8 → Digest
  | 0, st, _ => st
  | fuel + 1, st, msg =>
    match msg with
    | [] => st
    | _ :: _ => blocks fuel (block st (msg.take 64)) (msg.drop 64)

/-- The 16-byte MD5 digest of a message (`md5.Sum` of Go, the MD5 function of RFC 1321). -/
def Sum (data : List UInt8) : List UInt8 :=
  let p := pad data
  let r := blocks (p.length / 64) init p
  le32 r.a ++ le32 r.b ++ le32 r.c ++ le32 r.d

end md5

/-! ## encoding/base64 (RFC 4648, standard alphabet, with padding) -/

namespace base64

/-- The standard alphabet (`encodeStd` of Go). -/
def encodeStd : List Char :=
  "ABCDEFGHIJKLMNOPQRSTUVWXYZabcdefghijklmnopqrstuvwxyz0123456789+/".toList

/-- The character of a 6-bit value. -/
def enc (v : Nat) : Char := encodeStd.getD v '='

/-- The 6-bit value of an alphabet character, `none` for any other character. -/
def dec (c : Char) : Option Nat :=
  let i := encodeStd.indexOf c
  if i < 64 then some i else none

/-- Encoding proper: every three bytes give four characters; a final group of
one or two bytes is zero-extended and completed with `=`. -/
def encode : List UInt8 → List Char
  | [] => []
  | [b0] =>
    let val := b0.toNat * 2 ^ 16
    [enc (val / 2 ^ 18 % 64), enc (val / 2 ^ 12 % 64), '=', '=']
  | [b0, b1] =>
    let val := b0.toNat * 2 ^ 16 + b1.toNat * 2 ^ 8
    [enc (val / 2 ^ 18 % 64), enc (val / 2 ^ 12 % 64), enc (val / 2 ^ 6 % 64), '=']
  | b0 :: b1 :: b2 :: rest =>
    let val := b0.toNat * 2 ^ 16 + b1.toNat * 2 ^ 8 + b2.toNat
    enc (val / 2 ^ 18 % 64) :: enc (val / 2 ^ 12 % 64) :: enc (val / 2 ^ 6 % 64)
      :: enc (val % 64) :: encode rest

/-- Decoding proper: four characters give three bytes; the last group may end
in one or two `=`; anything else is rejected. -/
def decode : List Char → Option (List UInt8)
  | [] => some []
  | c0 :: c1 :: c2 :: c3 :: rest =>
    if rest = [] ∧ c3 = '=' then
      if c2 = '=' then
        match dec c0, dec c1 with
        | some v0, some v1 => some [UInt8.ofNat ((v0 * 4 + v1 / 16) % 256)]
        | _, _ => none
      else
        match dec c0, dec c1, dec c2 with
        | some v0, some v1, some v2 =>
          some [UInt8.ofNat ((v0 * 4 + v1 / 16) % 256), UInt8.ofNat ((v1 * 16 + v2 / 4) % 256)]
        | _, _, _ => none
    else
      match dec c0, dec c1, dec c2, dec c3, decode rest with
      | some v0, some v1, some v2, some v3, some bs =>
        some (UInt8.ofNat ((v0 * 4 + v1 / 16) % 256) :: UInt8.ofNat ((v1 * 16 + v2 / 4) % 256)
          :: UInt8.ofNat ((v2 * 64 + v3) % 256) :: bs)
      | _, _, _, _, _ => none
  | _ => none

/-- The text form of a byte sequence (`StdEncoding.EncodeToString`). -/
def EncodeToString (src : List UInt8) : String := String.mk (encode src)

/-- The bytes of a text, `none` when the text is not valid base64 (`StdEncoding.DecodeString`). -/
def DecodeString (s : String) : Option (List UInt8) := decode s.toList

end base64

/-! ## Byte strings, strconv -/

/-- The UTF-8 bytes of a string (`[]byte(s)`). -/
def bytes (s : String) : List UInt8 := s.toList.flatMap String.utf8EncodeChar

namespace strconv

/-- Text of an integer in the given base (`strconv.FormatInt`). -/
def FormatInt (i : Int) (base : Nat) : String :=
  if i < 0 then "-" ++ String.mk (Nat.toDigits base i.natAbs)
  else String.mk (Nat.toDigits base i.natAbs)

end strconv

/-! ## hash.Hash and bytes.Reader, io.Copy -/

/-- A `hash.Hash` as `getMd5` uses it: `Write` absorbs a chunk or reports an
error, `Sum` appends the digest of everything absorbed or panics. -/
structure Hash where
  /-- The bytes absorbed so far. -/
  absorbed : List UInt8
  /-- The error `Write` reports on a chunk, `none` when the chunk is absorbed. -/
  writeErr : List UInt8 → Option String
  /-- The value `Sum` panics with, `none` when `Sum` returns. -/
  sumPanic : Option String
  /-- The digest function of the hash. -/
  digest : List UInt8 → List UInt8

namespace Hash

/-- Absorbs `p`: returns the new hash, the number of bytes taken and the error. -/
def Write (h : Hash) (p : List UInt8) : Hash × Int × Option String :=
  match h.writeErr p with
  | some e => (h, 0, some e)
  | none => ({ h with absorbed := h.absorbed ++ p }, (p.length : Int), none)

/-- Appends the current digest to `b`; `Except.error` is a panic. -/
def Sum (h : Hash) (b : List UInt8) : Except String (List UInt8) :=
  match h.sumPanic with
  | some p => Except.error p
  | none => Except.ok (b ++ h.digest h.absorbed)

end Hash

/-- The text of the error and of the panic of `crypto/md5` in FIPS 140-only mode. -/
def md5.fipsError : String := "crypto/md5: use of MD5 is not allowed in FIPS 140-only mode"

/-- The hash `md5.New()` returns: nothing absorbed yet. `fips140only` says
whether the process runs in FIPS 140-only mode (`GODEBUG=fips140=only`, Go
1.24 and later): there `Write` returns an error for every chunk and `Sum`
panics; otherwise `Write` never returns an error and `Sum` never panics. -/
def md5.New (fips140only : Bool) : Hash :=
  { absorbed := []
    writeErr := fun _ => if fips140only then some md5.fipsError else none
    sumPanic := if fips140only then some md5.fipsError else none
    digest := md5.Sum }

namespace bytes

/-- A `bytes.Reader`: the slice and the read position. -/
structure Reader where
  s : List UInt8
  i : Nat

/-- A reader at the start of `b`. -/
def NewReader (b : List UInt8) : Reader := { s := b, i := 0 }

end bytes

namespace io

/-- The error of a `Write` that took fewer bytes than it was given without saying why. -/
def ErrShortWrite : String := "short write"

/-- Copy from a `bytes.Reader` to a hash: `io.Copy` hands over to
`Reader.WriteTo`, which returns at once on an exhausted reader and otherwise
writes the unread part in one `Write`. -/
def Copy (dst : Hash) (src : bytes.Reader) : Hash × Int × Option String :=
  if src.i ≥ src.s.length then (dst, 0, none)
  else
    let b := src.s.drop src.i
    match dst.Write b with
    | (dst, m, err) =>
      if m ≠ (b.length : Int) ∧ err = none then (dst, m, some ErrShortWrite)
      else (dst, m, err)

end io

/-! ## net/http: headers, requests, response writers -/

namespace http

def MethodPost : String := "POST"
def StatusOK : Nat := 200
def StatusMovedPermanently : Nat := 301
def StatusBadRequest : Nat := 400
def StatusInternalServerError : Nat := 500

/-- Whether a character may occur in a header field name (`validHeaderFieldByte`). -/
def validHeaderFieldByte (c : Char) : Bool :=
  c.isAlphanum || "!#$%&'*+-.^_`|~".toList.contains c

/-- Letter case of the canonical form: upper case at the start and after a
hyphen, lower case elsewhere. -/
def canonicalCase : Bool → List Char → List Char
  | _, [] => []
  | upper, c :: cs =>
    let c := if upper then c.toUpper else c.toLower
    c :: canonicalCase (c == '-') cs

/-- Canonical form of a header name (`CanonicalMIMEHeaderKey`): a name with a
character that is not valid in a field name is returned unchanged. -/
def CanonicalHeaderKey (s : String) : String :=
  if s.toList.all validHeaderFieldByte then String.mk (canonicalCase true s.toList) else s

/-- A header map, `map[string][]string`, as an association list in order of
first insertion. -/
structure Header where
  entries : List (String × List String)
deriving DecidableEq, Repr

namespace Header

/-- The map without entries. -/
def empty : Header := ⟨[]⟩

/-- Map lookup `h[key]`, `none` for a name that is not in the map. -/
def lookup (h : Header) (key : String) : Option (List String) := h.entries.lookup key

/-- Replaces the values of `key` in an association list, or appends the entry. -/
def assign (key : String) (vs : List String) : List (String × List String) → List (String × List String)
  | [] => [(key, vs)]
  | (k, v) :: rest => if k = key then (k, vs) :: rest else (k, v) :: assign key vs rest

/-- Map assignment `h[key] = vs`. -/
def set (h : Header) (key : String) (vs : List String) : Header := ⟨assign key vs h.entries⟩

/-- The first value of `key` (in canonical form), `""` when there is none (`Header.Get`). -/
def Get (h : Header) (key : String) : String :=
  match h.lookup (CanonicalHeaderKey key) with
  | some (v :: _) => v
  | _ => ""

/-- All values of `key` (in canonical form) (`Header.Values`). -/
def Values (h : Header) (key : String) : List String :=
  match h.lookup (CanonicalHeaderKey key) with
  | some vs => vs
  | none => []

/-- Appends `value` to the values of `key` (in canonical form) (`Header.Add`). -/
def Add (h : Header) (key value : String) : Header :=
  let k := CanonicalHeaderKey key
  match h.lookup k with
  | some vs => h.set k (vs ++ [value])
  | none => h.set k [value]

end Header

/-- The parts of a `*http.Request` the mux and the handler can look at. -/
structure Request where
  Method : String
  /-- The path of the request target in escaped form, `r.URL.EscapedPath()`. -/
  URL : String
  Header : Header
  Body : List UInt8
  /-- The request target as the client sent it, `r.RequestURI`. -/
  RequestURI : String := URL
deriving DecidableEq, Repr

/-- The response a handler produces: the status code, the header map as it
stood when the status was written, and the bytes passed to `Write`. -/
structure Response where
  code : Option Nat
  header : Header
  body : List UInt8
deriving DecidableEq, Repr

/-- A `http.ResponseWriter`. `header` is the live map behind `Header()`;
`code` is the status fixed by the first `WriteHeader` and `sent` the header
map at that moment; `body` collects, in order, the bytes the handler passes
to `Write`; `transport` is what the connection underneath reports for a
`Write` of a given buffer: the byte count and the error. -/
structure ResponseWriter where
  header : Header
  code : Option Nat
  sent : Header
  body : List UInt8
  transport : List UInt8 → Int × Option String

namespace ResponseWriter

/-- The writer the server hands to a handler for a new request. -/
def fresh (transport : List UInt8 → Int × Option String) : ResponseWriter :=
  { header := Header.empty, code := none, sent := Header.empty, body := [], transport := transport }

/-- `w.Header().Add(key, value)`. -/
def HeaderAdd (w : ResponseWriter) (key value : String) : ResponseWriter :=
  { w with header := w.header.Add key value }

/-- Fixes the status code and the headers of the response; a second call changes nothing. -/
def WriteHeader (w : ResponseWriter) (statusCode : Nat) : ResponseWriter :=
  match w.code with
  | some _ => w
  | none => { w with code := some statusCode, sent := w.header }

/-- Passes `b` to the connection; a `Write` before any `WriteHeader` first
writes status 200. Returns the byte count and error the transport reports. -/
def Write (w : ResponseWriter) (b : List UInt8) : ResponseWriter × Int × Option String :=
  let w := w.WriteHeader StatusOK
  ({ w with body := w.body ++ b }, w.transport b)

/-- The response as the client sees it. -/
def response (w : ResponseWriter) : Response :=
  { code := w.code, header := w.sent, body := w.body }

end ResponseWriter

end http

/-- `io.WriteString(w, s)` on a response writer. -/
def io.WriteString (w : http.ResponseWriter) (s : String) : http.ResponseWriter × Int × Option String :=
  w.Write (bytes s)

/-- A transport that takes every buffer whole and reports no error. -/
def acceptAll : List UInt8 → Int × Option String := fun b => ((b.length : Int), none)

/-! ## main.go -/

/-- A `sync.Mutex`; the zero value is unlocked. -/
inductive Mutex where
  | unlocked
  | locked
deriving DecidableEq, Repr

structure inMemContents where
  mu : Mutex
  contents : List UInt8
deriving DecidableEq, Repr

def csvText : String := "pk,col1,col2,col3\n1,a,b,c\n2,d,e,f\n3,g,h,i\n"

def sqlText : String :=
  "CALL DOLT_CHECKOUT('-b', 'import-branch-1');\n" ++
    "CREATE TABLE t1 (\n" ++
    "pk int primary key,\n" ++
    "col1 varchar(55),\n" ++
    "col2 varchar(55),\n" ++
    "col3 varchar(55)\n" ++
    ");\n" ++
    "INSERT INTO t1 (pk, col1, col2, col3) VALUES (1, 'a', 'b', 'c');\n" ++
    "INSERT INTO t1 (pk, col1, col2, col3) VALUES (2, 'd', 'e', 'f');\n" ++
    "INSERT INTO t1 (pk, col1, col2, col3) VALUES (3, 'g', 'h', 'i');\n" ++
    "CALL DOLT_COMMIT('-A', '-m', 'Create table t1');\n" ++
    "CALL DOLT_CHECKOUT('main');\n" ++
    "CALL DOLT_CHECKOUT('-b', 'import-branch-2');\n" ++
    "CREATE TABLE t2 (\n" ++
    "pk int primary key,\n" ++
    "col1 varchar(55),\n" ++
    "col2 varchar(55),\n" ++
    "col3 varchar(55)    \n" ++
    ");\n" ++
    "INSERT INTO t2 (pk, col1, col2, col3) VALUES (1, 'j', 'k', 'l');\n" ++
    "INSERT INTO t2 (pk, col1, col2, col3) VALUES (2, 'm', 'n', 'o');\n" ++
    "INSERT INTO t2 (pk, col1, col2, col3) VALUES (3, 'p', 'q', 'r');\n" ++
    "CALL DOLT_COMMIT('-A', '-m', 'Create table t2');\n" ++
    "CALL DOLT_CHECKOUT('main');\n" ++
    "CREATE TABLE t3 (\n" ++
    "pk int primary key,\n" ++
    "col1 varchar(55),\n" ++
    "col2 varchar(55),\n" ++
    "col3 varchar(55)    \n" ++
    ");\n" ++
    "INSERT INTO t3 (pk, col1, col2, col3) VALUES (1, 's', 't', 'u');\n" ++
    "INSERT INTO t3 (pk, col1, col2, col3) VALUES (2, 'v', 'w', 'x');\n" ++
    "INSERT INTO t3 (pk, col1, col2, col3) VALUES (3, 'y', 'z', 'aa');\n"

def newCsvContents : inMemContents := { mu := Mutex.unlocked, contents := bytes csvText }

def newSqlContents : inMemContents := { mu := Mutex.unlocked, contents := bytes sqlText }

namespace inMemContents

def Len (c : inMemContents) : Int := (c.contents.length : Int)

def ReadAll (c : inMemContents) : List UInt8 := c.contents

/-- The digest of the contents as base64 text and the error of the copy into
the hash; `Except.error` is a panic (of `hash.Sum`). `md5New` is the hash
`md5.New()` returns. -/
def getMd5 (md5New : Hash) (c : inMemContents) : Except String (String × Option String) :=
  let r := bytes.NewReader c.contents
  let hash := md5New
  match io.Copy hash r with
  | (_, _, some err) => Except.ok ("", some err)
  | (hash, _, none) =>
    match hash.Sum [] with
    | Except.error p => Except.error p
    | Except.ok sum => Except.ok (base64.EncodeToString sum, none)

end inMemContents

def writeSqlHeaders (w : http.ResponseWriter) : http.ResponseWriter :=
  let w := w.HeaderAdd "Content-Type" "application/sql"
  w.HeaderAdd "X-Import-Filename" "transformed.sql"

def writeCsvHeaders (w : http.ResponseWriter) : http.ResponseWriter :=
  let w := w.HeaderAdd "Content-Type" "text/csv"
  let w := w.HeaderAdd "X-Import-Filename" "transformed.csv"
  let w := w.HeaderAdd "X-Import-Table" "csv_table"
  let w := w.HeaderAdd "X-Import-Operation" "overwrite"
  let w := w.HeaderAdd "X-Import-Primary-Keys" "pk"
  w.HeaderAdd "X-Import-Primary-Keys" "col1"

/-- How a call of the handler ends: the writer as the handler leaves it, and
the value of the panic when the handler panics. -/
structure Outcome where
  w : http.ResponseWriter
  panicked : Option String

/-- The request handler. The lines printed to standard output are not part
of the model. `md5New` is the hash `md5.New()` returns. -/
def serveContents (md5New : Hash) (w : http.ResponseWriter) (req : http.Request)
    (contents : inMemContents) (serveSql : Bool) : Outcome :=
  if req.Method ≠ http.MethodPost then
    let w := w.WriteHeader http.StatusBadRequest
    match io.WriteString w "only POST requests supported." with
    | (w, _, _) => { w := w, panicked := none }
  else
    let contentType := req.Header.Get "Content-Type"
    if contentType = "" then
      let w := w.WriteHeader http.StatusBadRequest
      { w := w, panicked := none }
    else
      let b := contents.ReadAll
      let w := w.HeaderAdd "Content-Length" (strconv.FormatInt contents.Len 10)
      match contents.getMd5 md5New with
      | Except.error p => { w := w, panicked := some p }
      | Except.ok (_, some _) =>
        let w := w.WriteHeader http.StatusInternalServerError
        { w := w, panicked := none }
      | Except.ok (contentMd5, none) =>
        let w := if serveSql then writeSqlHeaders w else writeCsvHeaders w
        let w := w.HeaderAdd "X-Import-Md5" contentMd5
        let w := w.WriteHeader http.StatusOK
        match w.Write b with
        | (w, _, some err) => { w := w, panicked := some err }
        | (w, n, none) =>
          if n ≠ contents.Len then { w := w, panicked := some "failed to write all contents" }
          else { w := w, panicked := none }

/-! ### path.Clean and the path cleaning of ServeMux -/

namespace path

/-- The elements of a path: the pieces between its slashes. -/
def elements : List Char → List (List Char)
  | [] => [[]]
  | c :: cs =>
    match elements cs with
    | [] => [[c]]
    | e :: es => if c = '/' then [] :: e :: es else (c :: e) :: es

/-- One pass over the elements of a path, `kept` holding the elements kept so
far, last first: empty elements and "." are dropped, ".." removes the
element before it, is dropped at the root of a rooted path, and is kept at
the start of a path that is not rooted. -/
def cleanElements (rooted : Bool) : List (List Char) → List (List Char) → List (List Char)
  | kept, [] => kept.reverse
  | kept, e :: es =>
    if e = [] ∨ e = ['.'] then cleanElements rooted kept es
    else if e = ['.', '.'] then
      match kept with
      | [] => if rooted then cleanElements rooted [] es else cleanElements rooted [e] es
      | k :: ks =>
        if k = ['.', '.'] then cleanElements rooted (e :: k :: ks) es
        else cleanElements rooted ks es
    else cleanElements rooted (e :: kept) es

/-- The shortest path name equivalent to `p` by purely lexical processing (`path.Clean`). -/
def Clean (p : String) : String :=
  let rooted := p.toList.head? = some '/'
  let out := String.mk (['/'].intercalate (cleanElements rooted [] (elements p.toList)))
  if rooted then "/" ++ out
  else if out = "" then "."
  else out

end path

namespace http

/-- The canonical path for `p` (`cleanPath` of `net/http`): rooted, without
"." and ".." elements and repeated slashes, a trailing slash kept. -/
def cleanPath (p : String) : String :=
  if p = "" then "/"
  else
    let p := if p.toList.head? ≠ some '/' then "/" ++ p else p
    let np := path.Clean p
    if p.toList.getLast? = some '/' ∧ np ≠ "/" then np ++ "/" else np

end http

/-- The handler a `ServeMux` with the single pattern "/" picks for a request. -/
inductive Route where
  /-- The function registered for "/". -/
  | registered
  /-- A `RedirectHandler` with status 301. -/
  | redirect
deriving DecidableEq, Repr

/-- What the installed handler does with a request: either the mux answers
itself, of which only the status is recorded, or the function registered
for "/" runs. -/
inductive Served where
  | byMux (code : Nat)
  | byHandler (o : Outcome)

namespace Served

/-- The status of the answer. -/
def code : Served → Option Nat
  | byMux c => some c
  | byHandler o => o.w.code

/-- The outcome of the registered function, `none` when the mux answered itself. -/
def handled : Served → Option Outcome
  | byMux _ => none
  | byHandler o => some o

end Served

/-- The server `getHttpServer` builds: its address and the mode its handler closes over. -/
structure Server where
  Addr : String
  serveSql : Bool
deriving DecidableEq, Repr

def getHttpServer (port : Int) (serveSql : Bool) : Server :=
  { Addr := ":" ++ strconv.FormatInt port 10, serveSql := serveSql }

namespace Server

/-- The function literal registered for the pattern "/" (main.go, lines
217 to 225): a content holder is built for the request and passed to
`serveContents`. -/
def handleFunc (md5New : Hash) (srv : Server) (writer : http.ResponseWriter)
    (request : http.Request) : Outcome :=
  let contents := if srv.serveSql then newSqlContents else newCsvContents
  serveContents md5New writer request contents srv.serveSql

/-- The handler `ServeMux.findHandler` picks (Go 1.22 and later) when "/" is
the only pattern. A CONNECT request is not canonicalised and is redirected
only when its path has no slash (the trailing-slash redirect); for any
other method the path is cleaned and a request whose path is not in clean
form is redirected to the clean path. Everything else matches "/". -/
def findHandler (_srv : Server) (r : http.Request) : Route :=
  if r.Method = "CONNECT" then
    if r.URL.toList.contains '/' then Route.registered else Route.redirect
  else if http.cleanPath r.URL ≠ r.URL then Route.redirect
  else Route.registered

/-- The handler installed in the server, `Handler: mux` (`ServeMux.ServeHTTP`):
the request target "*" is answered 400, a redirect is answered 301, and
otherwise the function registered for "/" runs. -/
def Handler (md5New : Hash) (srv : Server) (w : http.ResponseWriter) (r : http.Request) : Served :=
  if r.RequestURI = "*" then Served.byMux http.StatusBadRequest
  else
    match srv.findHandler r with
    | Route.redirect => Served.byMux http.StatusMovedPermanently
    | Route.registered => Served.byHandler (srv.handleFunc md5New w r)

end Server

/-- A POST request with a CSV content type, used as a concrete input. -/
def postCsv : http.Request :=
  { Method := "POST", URL := "/", Header := ⟨[("Content-Type", ["text/csv"])]⟩, Body := [] }

/-- A POST request with other headers, path and body, used as a concrete input. -/
def postJson : http.Request :=
  { Method := "POST", URL := "/b/c",
    Header := ⟨[("Accept", ["*/*"]), ("Content-Type", ["application/json", "x"])]⟩,
    Body := bytes "two" }

/-- A POST request with a CSV content type to a path that is not in clean
form, used as a concrete input. -/
def postUnclean : http.Request :=
  { Method := "POST", URL := "//x", Header := ⟨[("Content-Type", ["text/csv"])]⟩, Body := [] }

/-! ## Library facts: md5 and base64 -/

set_option maxRecDepth 20000 in
/-- RFC 1321 test suite: the digest of the empty message. -/
theorem md5_Sum_empty :
    md5.Sum [] = [0xd4, 0x1d, 0x8c, 0xd9, 0x8f, 0x00, 0xb2, 0x04,
                  0xe9, 0x80, 0x09, 0x98, 0xec, 0xf8, 0x42, 0x7e] := by
  decide

set_option maxRecDepth 20000 in
/-- RFC 1321 test suite: the digest of "abc". -/
theorem md5_Sum_abc :
    md5.Sum (bytes "abc") = [0x90, 0x01, 0x50, 0x98, 0x3c, 0xd2, 0x4f, 0xb0,
                             0xd6, 0x96, 0x3f, 0x7d, 0x28, 0xe1, 0x7f, 0x72] := by
  decide

set_option maxRecDepth 20000 in
/-- RFC 1321 test suite: the digest of a message longer than one block
("1234567890" eight times). -/
theorem md5_Sum_digits :
    md5.Sum (bytes ("12345678901234567890123456789012345678901234567890123456789012345678901234567890")) =
      [0x57, 0xed, 0xf4, 0xa2, 0x2b, 0xe3, 0xc9, 0x55, 0xac, 0x49, 0xda, 0x2e, 0x21, 0x07, 0xb6, 0x7a] := by
  decide

/-- An MD5 digest has 16 bytes. -/
theorem md5_Sum_length (data : List UInt8) : (md5.Sum data).length = 16 := by
  simp [md5.Sum, md5.le32]

/-- RFC 4648 test vectors. -/
theorem base64_vectors :
    base64.EncodeToString (bytes "") = "" ∧
    base64.EncodeToString (bytes "f") = "Zg==" ∧
    base64.EncodeToString (bytes "fo") = "Zm8=" ∧
    base64.EncodeToString (bytes "foo") = "Zm9v" ∧
    base64.EncodeToString (bytes "foob") = "Zm9vYg==" ∧
    base64.EncodeToString (bytes "fooba") = "Zm9vYmE=" ∧
    base64.EncodeToString (bytes "foobar") = "Zm9vYmFy" := by
  decide

theorem base64_dec_enc : ∀ v : Fin 64, base64.dec (base64.enc v.val) = some v.val := by
  decide

theorem base64_enc_ne_pad : ∀ v : Fin 64, base64.enc v.val ≠ '=' := by
  decide

theorem base64_dec_enc_lt (v : Nat) (h : v < 64) : base64.dec (base64.enc v) = some v :=
  base64_dec_enc ⟨v, h⟩

theorem base64_enc_ne_pad_lt (v : Nat) (h : v < 64) : base64.enc v ≠ '=' :=
  base64_enc_ne_pad ⟨v, h⟩

/-- The text of `n` bytes has `4 * ⌈n / 3⌉` characters. -/
theorem base64_encode_length (src : List UInt8) :
    (base64.encode src).length = 4 * ((src.length + 2) / 3) := by
  induction src using base64.encode.induct with
  | case1 => rfl
  | case2 b0 => simp [base64.encode]
  | case3 b0 b1 => simp [base64.encode]
  | case4 b0 b1 b2 rest ih =>
    simp only [base64.encode, List.length_cons, ih]
    omega

theorem uint8_ofNat_of_eq (b : UInt8) (n : Nat) (h : n = b.toNat) : UInt8.ofNat n = b := by
  subst h
  apply UInt8.ext
  have hb := b.toNat_lt
  simp only [UInt8.ofNat, UInt8.toNat, BitVec.toNat_ofNat] at hb ⊢
  exact Nat.mod_eq_of_lt hb

/-- Decoding undoes encoding. -/
theorem base64_decode_encode (src : List UInt8) :
    base64.decode (base64.encode src) = some src := by
  induction src using base64.encode.induct with
  | case1 => rfl
  | case2 b0 =>
    have h0 := b0.toNat_lt
    have e0 := base64_dec_enc_lt (b0.toNat * 2 ^ 16 / 2 ^ 18 % 64) (Nat.mod_lt _ (by norm_num))
    have e1 := base64_dec_enc_lt (b0.toNat * 2 ^ 16 / 2 ^ 12 % 64) (Nat.mod_lt _ (by norm_num))
    simp only [base64.encode, base64.decode, and_self, if_true, e0, e1]
    congr 2
    apply uint8_ofNat_of_eq
    omega
  | case3 b0 b1 =>
    have h0 := b0.toNat_lt
    have h1 := b1.toNat_lt
    have e0 := base64_dec_enc_lt ((b0.toNat * 2 ^ 16 + b1.toNat * 2 ^ 8) / 2 ^ 18 % 64)
      (Nat.mod_lt _ (by norm_num))
    have e1 := base64_dec_enc_lt ((b0.toNat * 2 ^ 16 + b1.toNat * 2 ^ 8) / 2 ^ 12 % 64)
      (Nat.mod_lt _ (by norm_num))
    have e2 := base64_dec_enc_lt ((b0.toNat * 2 ^ 16 + b1.toNat * 2 ^ 8) / 2 ^ 6 % 64)
      (Nat.mod_lt _ (by norm_num))
    have n2 := base64_enc_ne_pad_lt ((b0.toNat * 2 ^ 16 + b1.toNat * 2 ^ 8) / 2 ^ 6 % 64)
      (Nat.mod_lt _ (by norm_num))
    simp only [base64.encode, base64.decode, and_self, if_true, n2, if_false, e0, e1, e2]
    congr 2
    · apply uint8_ofNat_of_eq
      omega
    · congr 1
      apply uint8_ofNat_of_eq
      omega
  | case4 b0 b1 b2 rest ih =>
    have h0 := b0.toNat_lt
    have h1 := b1.toNat_lt
    have h2 := b2.toNat_lt
    have e0 := base64_dec_enc_lt ((b0.toNat * 2 ^ 16 + b1.toNat * 2 ^ 8 + b2.toNat) / 2 ^ 18 % 64)
      (Nat.mod_lt _ (by norm_num))
    have e1 := base64_dec_enc_lt ((b0.toNat * 2 ^ 16 + b1.toNat * 2 ^ 8 + b2.toNat) / 2 ^ 12 % 64)
      (Nat.mod_lt _ (by norm_num))
    have e2 := base64_dec_enc_lt ((b0.toNat * 2 ^ 16 + b1.toNat * 2 ^ 8 + b2.toNat) / 2 ^ 6 % 64)
      (Nat.mod_lt _ (by norm_num))
    have e3 := base64_dec_enc_lt ((b0.toNat * 2 ^ 16 + b1.toNat * 2 ^ 8 + b2.toNat) % 64)
      (Nat.mod_lt _ (by norm_num))
    have n3 := base64_enc_ne_pad_lt ((b0.toNat * 2 ^ 16 + b1.toNat * 2 ^ 8 + b2.toNat) % 64)
      (Nat.mod_lt _ (by norm_num))
    simp only [base64.encode, base64.decode, n3, and_false, if_false, e0, e1, e2, e3, ih]
    congr 2
    · apply uint8_ofNat_of_eq
      omega
    · congr 1
      · apply uint8_ofNat_of_eq
        omega
      · congr 1
        apply uint8_ofNat_of_eq
        omega

/-! ## The content holder -/

/-- With a hash whose `Write` does not fail and whose `Sum` does not panic the
checksum is the base64 text of the digest of what the hash has absorbed,
and there is no error. -/
theorem getMd5_of_no_failure (h : Hash) (c : inMemContents)
    (hw : ∀ p, h.writeErr p = none) (hs : h.sumPanic = none) :
    c.getMd5 h =
      Except.ok (base64.EncodeToString (h.digest (h.absorbed ++ c.contents)), none) := by
  cases hc : c.contents with
  | nil => simp [inMemContents.getMd5, io.Copy, bytes.NewReader, Hash.Sum, hc, hs]
  | cons b bs =>
    simp [inMemContents.getMd5, io.Copy, bytes.NewReader, Hash.Sum, Hash.Write, hc, hs, hw]

/-- Outside FIPS 140-only mode the checksum is the base64 text of the MD5
digest of the contents, and there is no error. -/
theorem getMd5_md5New (c : inMemContents) :
    c.getMd5 (md5.New false) =
      Except.ok (base64.EncodeToString (md5.Sum c.contents), none) := by
  rw [getMd5_of_no_failure (md5.New false) c (fun _ => rfl) rfl]
  rfl

/-- In FIPS 140-only mode the checksum of non-empty contents is the error of `Write`. -/
theorem getMd5_fips (c : inMemContents) (hne : c.contents ≠ []) :
    c.getMd5 (md5.New true) = Except.ok ("", some md5.fipsError) := by
  cases hc : c.contents with
  | nil => exact absurd hc hne
  | cons b bs =>
    simp [inMemContents.getMd5, io.Copy, bytes.NewReader, Hash.Write, hc, md5.New]

/-! ## Header names -/

theorem canonical_names :
    http.CanonicalHeaderKey "Content-Length" = "Content-Length" ∧
    http.CanonicalHeaderKey "Content-Type" = "Content-Type" ∧
    http.CanonicalHeaderKey "X-Import-Filename" = "X-Import-Filename" ∧
    http.CanonicalHeaderKey "X-Import-Md5" = "X-Import-Md5" ∧
    http.CanonicalHeaderKey "X-Import-Table" = "X-Import-Table" ∧
    http.CanonicalHeaderKey "X-Import-Operation" = "X-Import-Operation" ∧
    http.CanonicalHeaderKey "X-Import-Primary-Keys" = "X-Import-Primary-Keys" := by
  decide

/-- The header map of the 200 response in CSV mode, in order of insertion. -/
theorem csv_headers (contentLength contentMd5 : String) :
    ((((((((http.Header.empty.Add "Content-Length" contentLength).Add "Content-Type" "text/csv").Add
      "X-Import-Filename" "transformed.csv").Add "X-Import-Table" "csv_table").Add
      "X-Import-Operation" "overwrite").Add "X-Import-Primary-Keys" "pk").Add
      "X-Import-Primary-Keys" "col1").Add "X-Import-Md5" contentMd5) =
    ⟨[("Content-Length", [contentLength]), ("Content-Type", ["text/csv"]),
      ("X-Import-Filename", ["transformed.csv"]), ("X-Import-Table", ["csv_table"]),
      ("X-Import-Operation", ["overwrite"]), ("X-Import-Primary-Keys", ["pk", "col1"]),
      ("X-Import-Md5", [contentMd5])]⟩ := by
  obtain ⟨h1, h2, h3, h4, h5, h6, h7⟩ := canonical_names
  simp [http.Header.Add, http.Header.empty, http.Header.lookup, http.Header.set,
    http.Header.assign, h1, h2, h3, h4, h5, h6, h7, List.lookup]

/-- The header map of the 200 response in SQL mode, in order of insertion. -/
theorem sql_headers (contentLength contentMd5 : String) :
    ((((http.Header.empty.Add "Content-Length" contentLength).Add "Content-Type"
      "application/sql").Add "X-Import-Filename" "transformed.sql").Add
      "X-Import-Md5" contentMd5) =
    ⟨[("Content-Length", [contentLength]), ("Content-Type", ["application/sql"]),
      ("X-Import-Filename", ["transformed.sql"]), ("X-Import-Md5", [contentMd5])]⟩ := by
  obtain ⟨h1, h2, h3, h4, h5, h6, h7⟩ := canonical_names
  simp [http.Header.Add, http.Header.empty, http.Header.lookup, http.Header.set,
    http.Header.assign, h1, h2, h3, h4, h5, h6, h7, List.lookup]

/-! ## The three paths of `serveContents` -/

theorem serveContents_not_post (md5New : Hash) (t : List UInt8 → Int × Option String)
    (req : http.Request) (contents : inMemContents) (serveSql : Bool)
    (hm : req.Method ≠ "POST") :
    serveContents md5New (http.ResponseWriter.fresh t) req contents serveSql =
      { w := { header := http.Header.empty, code := some 400, sent := http.Header.empty,
               body := bytes "only POST requests supported.", transport := t },
        panicked := none } := by
  have hm2 : req.Method ≠ http.MethodPost := hm
  simp [serveContents, hm2, io.WriteString, http.ResponseWriter.Write,
    http.ResponseWriter.WriteHeader, http.ResponseWriter.fresh, http.StatusBadRequest]

theorem serveContents_no_content_type (md5New : Hash) (t : List UInt8 → Int × Option String)
    (req : http.Request) (contents : inMemContents) (serveSql : Bool)
    (hm : req.Method = "POST") (hct : req.Header.Get "Content-Type" = "") :
    serveContents md5New (http.ResponseWriter.fresh t) req contents serveSql =
      { w := { header := http.Header.empty, code := some 400, sent := http.Header.empty,
               body := [], transport := t },
        panicked := none } := by
  simp [serveContents, hm, hct, http.MethodPost,
    http.ResponseWriter.WriteHeader, http.ResponseWriter.fresh, http.StatusBadRequest]

theorem serveContents_checksum_error (md5New : Hash) (t : List UInt8 → Int × Option String)
    (req : http.Request) (contents : inMemContents) (serveSql : Bool)
    (hm : req.Method = "POST") (hct : req.Header.Get "Content-Type" ≠ "")
    (m e : String) (herr : contents.getMd5 md5New = Except.ok (m, some e)) :
    serveContents md5New (http.ResponseWriter.fresh t) req contents serveSql =
      { w := { header := http.Header.empty.Add "Content-Length" (strconv.FormatInt contents.Len 10),
               code := some 500,
               sent := http.Header.empty.Add "Content-Length" (strconv.FormatInt contents.Len 10),
               body := [], transport := t },
        panicked := none } := by
  simp [serveContents, hm, hct, http.MethodPost, herr, http.ResponseWriter.HeaderAdd,
    http.ResponseWriter.WriteHeader, http.ResponseWriter.fresh,
    http.StatusInternalServerError]

theorem serveContents_ok (md5New : Hash) (t : List UInt8 → Int × Option String)
    (req : http.Request) (contents : inMemContents) (serveSql : Bool) (contentMd5 : String)
    (hm : req.Method = "POST") (hct : req.Header.Get "Content-Type" ≠ "")
    (hg : contents.getMd5 md5New = Except.ok (contentMd5, none)) :
    serveContents md5New (http.ResponseWriter.fresh t) req contents serveSql =
      { w :=
          { header :=
              if serveSql then
                ⟨[("Content-Length", [strconv.FormatInt contents.Len 10]),
                  ("Content-Type", ["application/sql"]),
                  ("X-Import-Filename", ["transformed.sql"]), ("X-Import-Md5", [contentMd5])]⟩
              else
                ⟨[("Content-Length", [strconv.FormatInt contents.Len 10]),
                  ("Content-Type", ["text/csv"]),
                  ("X-Import-Filename", ["transformed.csv"]), ("X-Import-Table", ["csv_table"]),
                  ("X-Import-Operation", ["overwrite"]),
                  ("X-Import-Primary-Keys", ["pk", "col1"]), ("X-Import-Md5", [contentMd5])]⟩,
            code := some 200,
            sent :=
              if serveSql then
                ⟨[("Content-Length", [strconv.FormatInt contents.Len 10]),
                  ("Content-Type", ["application/sql"]),
                  ("X-Import-Filename", ["transformed.sql"]), ("X-Import-Md5", [contentMd5])]⟩
              else
                ⟨[("Content-Length", [strconv.FormatInt contents.Len 10]),
                  ("Content-Type", ["text/csv"]),
                  ("X-Import-Filename", ["transformed.csv"]), ("X-Import-Table", ["csv_table"]),
                  ("X-Import-Operation", ["overwrite"]),
                  ("X-Import-Primary-Keys", ["pk", "col1"]), ("X-Import-Md5", [contentMd5])]⟩,
            body := contents.contents,
            transport := t },
        panicked :=
          match t contents.contents with
          | (_, some err) => some err
          | (n, none) => if n ≠ contents.Len then some "failed to write all contents" else none } := by
  have hcsv := csv_headers (strconv.FormatInt contents.Len 10) contentMd5
  have hsql := sql_headers (strconv.FormatInt contents.Len 10) contentMd5
  rcases ht : t contents.contents with ⟨n, _ | err⟩
  · cases serveSql
    · by_cases hn : n = contents.Len <;>
      simp [serveContents, hm, hct, http.MethodPost, hg, writeCsvHeaders,
        http.ResponseWriter.HeaderAdd, http.ResponseWriter.WriteHeader,
        http.ResponseWriter.Write, http.ResponseWriter.fresh, http.StatusOK,
        inMemContents.ReadAll, ht, hcsv, hn]
    · by_cases hn : n = contents.Len <;>
      simp [serveContents, hm, hct, http.MethodPost, hg, writeSqlHeaders,
        http.ResponseWriter.HeaderAdd, http.ResponseWriter.WriteHeader,
        http.ResponseWriter.Write, http.ResponseWriter.fresh, http.StatusOK,
        inMemContents.ReadAll, ht, hsql, hn]
  · cases serveSql
    · simp [serveContents, hm, hct, http.MethodPost, hg, writeCsvHeaders,
        http.ResponseWriter.HeaderAdd, http.ResponseWriter.WriteHeader,
        http.ResponseWriter.Write, http.ResponseWriter.fresh, http.StatusOK,
        inMemContents.ReadAll, ht, hcsv]
    · simp [serveContents, hm, hct, http.MethodPost, hg, writeSqlHeaders,
        http.ResponseWriter.HeaderAdd, http.ResponseWriter.WriteHeader,
        http.ResponseWriter.Write, http.ResponseWriter.fresh, http.StatusOK,
        inMemContents.ReadAll, ht, hsql]

/-- When `Sum` panics the handler panics after Content-Length has been added
and before any status is written. -/
theorem serveContents_checksum_panic (md5New : Hash) (t : List UInt8 → Int × Option String)
    (req : http.Request) (contents : inMemContents) (serveSql : Bool)
    (hm : req.Method = "POST") (hct : req.Header.Get "Content-Type" ≠ "")
    (p : String) (hp : contents.getMd5 md5New = Except.error p) :
    serveContents md5New (http.ResponseWriter.fresh t) req contents serveSql =
      { w := { header := http.Header.empty.Add "Content-Length" (strconv.FormatInt contents.Len 10),
               code := none, sent := http.Header.empty, body := [], transport := t },
        panicked := some p } := by
  simp [serveContents, hm, hct, http.MethodPost, hp, http.ResponseWriter.HeaderAdd,
    http.ResponseWriter.fresh]

/-! ## The two fixtures -/

theorem csv_length : strconv.FormatInt newCsvContents.Len 10 = "42" := by
  decide

set_option maxRecDepth 20000 in
theorem csv_md5 :
    base64.EncodeToString (md5.Sum newCsvContents.contents) = "bziaWcQPL8YIKnD0sZoYZA==" := by
  decide

set_option maxRecDepth 200000 in
theorem sql_length : strconv.FormatInt newSqlContents.Len 10 = "1120" := by
  decide

theorem sql_md5 :
    base64.EncodeToString (md5.Sum newSqlContents.contents) = "Wm6ZZveYG8MyJNzeRzMRAQ==" := by
  decide!

/-- The response of the registered function to a POST request with a content
type, CSV mode, outside FIPS 140-only mode. -/
theorem handleFunc_csv (port : Int) (t : List UInt8 → Int × Option String) (req : http.Request)
    (hm : req.Method = "POST") (hct : req.Header.Get "Content-Type" ≠ "") :
    ((getHttpServer port false).handleFunc (md5.New false) (http.ResponseWriter.fresh t)
        req).w.response =
      { code := some 200,
        header :=
          ⟨[("Content-Length", ["42"]), ("Content-Type", ["text/csv"]),
            ("X-Import-Filename", ["transformed.csv"]), ("X-Import-Table", ["csv_table"]),
            ("X-Import-Operation", ["overwrite"]), ("X-Import-Primary-Keys", ["pk", "col1"]),
            ("X-Import-Md5", ["bziaWcQPL8YIKnD0sZoYZA=="])]⟩,
        body := bytes csvText } := by
  have h := serveContents_ok (md5.New false) t req newCsvContents false _ hm hct
    (getMd5_md5New newCsvContents)
  simp only [Server.handleFunc, getHttpServer, Bool.false_eq_true, if_false, h,
    http.ResponseWriter.response, csv_length, csv_md5]
  rfl

/-- The response of the registered function to a POST request with a content
type, SQL mode, outside FIPS 140-only mode. -/
theorem handleFunc_sql (port : Int) (t : List UInt8 → Int × Option String) (req : http.Request)
    (hm : req.Method = "POST") (hct : req.Header.Get "Content-Type" ≠ "") :
    ((getHttpServer port true).handleFunc (md5.New false) (http.ResponseWriter.fresh t)
        req).w.response =
      { code := some 200,
        header :=
          ⟨[("Content-Length", ["1120"]), ("Content-Type", ["application/sql"]),
            ("X-Import-Filename", ["transformed.sql"]),
            ("X-Import-Md5", ["Wm6ZZveYG8MyJNzeRzMRAQ=="])]⟩,
        body := bytes sqlText } := by
  have h := serveContents_ok (md5.New false) t req newSqlContents true _ hm hct
    (getMd5_md5New newSqlContents)
  simp only [Server.handleFunc, getHttpServer, if_true, h,
    http.ResponseWriter.response, sql_length, sql_md5]
  rfl

/-- With a transport that takes every buffer whole the registered function
does not panic outside FIPS 140-only mode. -/
theorem handleFunc_no_panic (srv : Server) (t : List UInt8 → Int × Option String)
    (req : http.Request) (ht : ∀ b, t b = ((b.length : Int), none)) :
    (srv.handleFunc (md5.New false) (http.ResponseWriter.fresh t) req).panicked = none := by
  by_cases hm : req.Method = "POST"
  · by_cases hct : req.Header.Get "Content-Type" = ""
    · simp [Server.handleFunc, serveContents_no_content_type _ _ _ _ _ hm hct]
    · simp [Server.handleFunc,
        serveContents_ok (md5.New false) t req _ _ _ hm hct (getMd5_md5New _), ht,
        inMemContents.Len]
  · simp [Server.handleFunc, serveContents_not_post _ _ _ _ _ hm]

/-- The response of `serveContents` depends on the request only through "is
the method POST" and "is the first Content-Type value empty", and not on
the transport, whatever the hash does. -/
theorem serveContents_response_congr (md5New : Hash) (t1 t2 : List UInt8 → Int × Option String)
    (r1 r2 : http.Request) (contents : inMemContents) (serveSql : Bool)
    (hm : r1.Method = "POST" ↔ r2.Method = "POST")
    (hc : r1.Header.Get "Content-Type" = "" ↔ r2.Header.Get "Content-Type" = "") :
    (serveContents md5New (http.ResponseWriter.fresh t1) r1 contents serveSql).w.response =
      (serveContents md5New (http.ResponseWriter.fresh t2) r2 contents serveSql).w.response := by
  by_cases h1 : r1.Method = "POST"
  · have h2 := hm.1 h1
    by_cases c1 : r1.Header.Get "Content-Type" = ""
    · have c2 := hc.1 c1
      rw [serveContents_no_content_type _ _ _ _ _ h1 c1,
        serveContents_no_content_type _ _ _ _ _ h2 c2]
      rfl
    · have c2 : ¬ r2.Header.Get "Content-Type" = "" := fun h => c1 (hc.2 h)
      rcases hg : contents.getMd5 md5New with p | ⟨m, _ | e⟩
      · rw [serveContents_checksum_panic md5New t1 r1 _ _ h1 c1 p hg,
          serveContents_checksum_panic md5New t2 r2 _ _ h2 c2 p hg]
        rfl
      · rw [serveContents_ok md5New t1 r1 _ _ m h1 c1 hg,
          serveContents_ok md5New t2 r2 _ _ m h2 c2 hg]
        rfl
      · rw [serveContents_checksum_error md5New t1 r1 _ _ h1 c1 m e hg,
          serveContents_checksum_error md5New t2 r2 _ _ h2 c2 m e hg]
        rfl
  · have h2 : ¬ r2.Method = "POST" := fun h => h1 (hm.2 h)
    rw [serveContents_not_post _ _ _ _ _ h1, serveContents_not_post _ _ _ _ _ h2]
    rfl

/-! ## The claims -/

/-- C1: a request whose method is not exactly "POST" is answered, in both
modes and whatever its headers are (the method is checked before the
Content-Type header), with status 400, no response header and the body
"only POST requests supported."; the handler does not panic. -/
theorem C1_non_post_rejected (md5New : Hash) (t : List UInt8 → Int × Option String)
    (req : http.Request) (contents : inMemContents) (serveSql : Bool)
    (hm : req.Method ≠ "POST") :
    (serveContents md5New (http.ResponseWriter.fresh t) req contents serveSql).w.response =
        { code := some 400, header := http.Header.empty,
          body := bytes "only POST requests supported." } ∧
      (serveContents md5New (http.ResponseWriter.fresh t) req contents serveSql).panicked = none := by
  rw [serveContents_not_post md5New t req contents serveSql hm]
  exact ⟨rfl, rfl⟩

/-- C1 at a lower-case "post" without a Content-Type header, SQL mode. -/
theorem C1_non_post_rejected_witness :
    ("post" ≠ "POST") ∧
    (serveContents (md5.New false) (http.ResponseWriter.fresh acceptAll)
        { Method := "post", URL := "/", Header := ⟨[]⟩, Body := [] } newSqlContents true).w.response =
      { code := some 400, header := http.Header.empty,
        body := bytes "only POST requests supported." } :=
  ⟨by decide,
   (C1_non_post_rejected (md5.New false) acceptAll
      { Method := "post", URL := "/", Header := ⟨[]⟩, Body := [] } newSqlContents true
      (by decide)).1⟩

/-- The first value of a header is empty exactly when the name is not in the
map, has no value, or has the empty string as first value. -/
theorem Header_Get_eq_empty_iff (h : http.Header) (key : String) :
    h.Get key = "" ↔
      h.lookup (http.CanonicalHeaderKey key) = none ∨
      h.lookup (http.CanonicalHeaderKey key) = some [] ∨
      ∃ rest, h.lookup (http.CanonicalHeaderKey key) = some ("" :: rest) := by
  unfold http.Header.Get
  rcases h.lookup (http.CanonicalHeaderKey key) with _ | _ | ⟨v, vs⟩ <;> simp

/-- C2: a POST request whose Content-Type header is absent, has no value or
has the empty string as first value is answered, in both modes, with status
400, an empty body and an empty header map: none of Content-Length,
Content-Type, X-Import-Filename, X-Import-Md5, X-Import-Table,
X-Import-Operation, X-Import-Primary-Keys is set. -/
theorem C2_missing_content_type (md5New : Hash) (t : List UInt8 → Int × Option String)
    (req : http.Request) (contents : inMemContents) (serveSql : Bool)
    (hm : req.Method = "POST")
    (hct : req.Header.lookup "Content-Type" = none ∨ req.Header.lookup "Content-Type" = some [] ∨
      ∃ rest, req.Header.lookup "Content-Type" = some ("" :: rest)) :
    (serveContents md5New (http.ResponseWriter.fresh t) req contents serveSql).w.response =
        { code := some 400, header := http.Header.empty, body := [] } ∧
      (serveContents md5New (http.ResponseWriter.fresh t) req contents serveSql).w.header =
        http.Header.empty ∧
      (∀ key,
        (serveContents md5New (http.ResponseWriter.fresh t) req contents
          serveSql).w.response.header.lookup key = none) ∧
      (serveContents md5New (http.ResponseWriter.fresh t) req contents serveSql).panicked = none := by
  have hget : req.Header.Get "Content-Type" = "" := by
    rw [Header_Get_eq_empty_iff, canonical_names.2.1]
    exact hct
  rw [serveContents_no_content_type md5New t req contents serveSql hm hget]
  exact ⟨rfl, rfl, fun _ => rfl, rfl⟩

/-- C2 at a POST request whose only Content-Type value is the empty string, CSV mode. -/
theorem C2_missing_content_type_witness :
    http.Header.lookup ⟨[("Content-Type", [""])]⟩ "Content-Type" = some ("" :: []) ∧
    (serveContents (md5.New false) (http.ResponseWriter.fresh acceptAll)
        { Method := "POST", URL := "/", Header := ⟨[("Content-Type", [""])]⟩, Body := [] }
        newCsvContents false).w.response =
      { code := some 400, header := http.Header.empty, body := [] } :=
  ⟨by decide,
   (C2_missing_content_type (md5.New false) acceptAll
      { Method := "POST", URL := "/", Header := ⟨[("Content-Type", [""])]⟩, Body := [] }
      newCsvContents false rfl (Or.inr (Or.inr ⟨[], by decide⟩))).1⟩

/-- C3: in CSV mode (outside FIPS 140-only mode) a POST request with a
non-empty Content-Type header, on a writer that takes all bytes, gets
status 200 from the registered handler function, the CSV fixture as body (42
bytes), Content-Length "42", Content-Type "text/csv", X-Import-Filename
"transformed.csv", X-Import-Table "csv_table", X-Import-Operation
"overwrite" and the two X-Import-Primary-Keys values "pk", "col1" in that
order; the handler does not panic. -/
theorem C3_csv_response (port : Int) (t : List UInt8 → Int × Option String)
    (req : http.Request)
    (hm : req.Method = "POST") (hct : req.Header.Get "Content-Type" ≠ "")
    (ht : ∀ b, t b = ((b.length : Int), none)) :
    ((getHttpServer port false).handleFunc (md5.New false)
        (http.ResponseWriter.fresh t) req).panicked = none ∧
      ((getHttpServer port false).handleFunc (md5.New false)
          (http.ResponseWriter.fresh t) req).w.response.code = some 200 ∧
      ((getHttpServer port false).handleFunc (md5.New false)
          (http.ResponseWriter.fresh t) req).w.response.body =
        bytes "pk,col1,col2,col3\n1,a,b,c\n2,d,e,f\n3,g,h,i\n" ∧
      ((getHttpServer port false).handleFunc (md5.New false)
          (http.ResponseWriter.fresh t) req).w.response.body.length = 42 ∧
      ((getHttpServer port false).handleFunc (md5.New false)
          (http.ResponseWriter.fresh t) req).w.response.header.Values "Content-Length" =
        ["42"] ∧
      ((getHttpServer port false).handleFunc (md5.New false)
          (http.ResponseWriter.fresh t) req).w.response.header.Values "Content-Type" =
        ["text/csv"] ∧
      ((getHttpServer port false).handleFunc (md5.New false)
          (http.ResponseWriter.fresh t) req).w.response.header.Values
        "X-Import-Filename" = ["transformed.csv"] ∧
      ((getHttpServer port false).handleFunc (md5.New false)
          (http.ResponseWriter.fresh t) req).w.response.header.Values
        "X-Import-Table" = ["csv_table"] ∧
      ((getHttpServer port false).handleFunc (md5.New false)
          (http.ResponseWriter.fresh t) req).w.response.header.Values
        "X-Import-Operation" = ["overwrite"] ∧
      ((getHttpServer port false).handleFunc (md5.New false)
          (http.ResponseWriter.fresh t) req).w.response.header.Values
        "X-Import-Primary-Keys" = ["pk", "col1"] := by
  refine ⟨handleFunc_no_panic _ t req ht, ?_⟩
  rw [handleFunc_csv port t req hm hct]
  decide

/-- C3 at a POST request with Content-Type "text/plain" on port 1709. -/
theorem C3_csv_response_witness :
    http.Header.Get ⟨[("Content-Type", ["text/plain"])]⟩ "Content-Type" ≠ "" ∧
    ((getHttpServer 1709 false).handleFunc (md5.New false) (http.ResponseWriter.fresh acceptAll)
        { Method := "POST", URL := "/", Header := ⟨[("Content-Type", ["text/plain"])]⟩,
          Body := bytes "ignored" }).w.response.header.Values "X-Import-Primary-Keys" =
      ["pk", "col1"] :=
  ⟨by decide,
   (C3_csv_response 1709 acceptAll
      { Method := "POST", URL := "/", Header := ⟨[("Content-Type", ["text/plain"])]⟩,
        Body := bytes "ignored" }
      rfl (by decide) (fun _ => rfl)).2.2.2.2.2.2.2.2.2⟩

/-- C4: in SQL mode (outside FIPS 140-only mode) a POST request with a
non-empty Content-Type header, on a writer that takes all bytes, gets
status 200 from the registered handler function, the SQL fixture as body (1120
bytes), the decimal length of the fixture as Content-Length, Content-Type
"application/sql", X-Import-Filename "transformed.sql", and no
X-Import-Table, X-Import-Operation or X-Import-Primary-Keys header; the
handler does not panic. -/
theorem C4_sql_response (port : Int) (t : List UInt8 → Int × Option String)
    (req : http.Request)
    (hm : req.Method = "POST") (hct : req.Header.Get "Content-Type" ≠ "")
    (ht : ∀ b, t b = ((b.length : Int), none)) :
    ((getHttpServer port true).handleFunc (md5.New false)
        (http.ResponseWriter.fresh t) req).panicked = none ∧
      ((getHttpServer port true).handleFunc (md5.New false)
          (http.ResponseWriter.fresh t) req).w.response.code = some 200 ∧
      ((getHttpServer port true).handleFunc (md5.New false)
          (http.ResponseWriter.fresh t) req).w.response.body = bytes sqlText ∧
      ((getHttpServer port true).handleFunc (md5.New false)
          (http.ResponseWriter.fresh t) req).w.response.header.Values "Content-Length" =
        [strconv.FormatInt ((bytes sqlText).length : Int) 10] ∧
      ((getHttpServer port true).handleFunc (md5.New false)
          (http.ResponseWriter.fresh t) req).w.response.header.Values "Content-Length" =
        ["1120"] ∧
      ((getHttpServer port true).handleFunc (md5.New false)
          (http.ResponseWriter.fresh t) req).w.response.header.Values "Content-Type" =
        ["application/sql"] ∧
      ((getHttpServer port true).handleFunc (md5.New false)
          (http.ResponseWriter.fresh t) req).w.response.header.Values
        "X-Import-Filename" = ["transformed.sql"] ∧
      ((getHttpServer port true).handleFunc (md5.New false)
          (http.ResponseWriter.fresh t) req).w.response.header.lookup
        "X-Import-Table" = none ∧
      ((getHttpServer port true).handleFunc (md5.New false)
          (http.ResponseWriter.fresh t) req).w.response.header.lookup
        "X-Import-Operation" = none ∧
      ((getHttpServer port true).handleFunc (md5.New false)
          (http.ResponseWriter.fresh t) req).w.response.header.lookup
        "X-Import-Primary-Keys" = none := by
  refine ⟨handleFunc_no_panic _ t req ht, ?_⟩
  rw [handleFunc_sql port t req hm hct]
  have hlen : strconv.FormatInt ((bytes sqlText).length : Int) 10 = "1120" := sql_length
  rw [hlen]
  refine ⟨rfl, rfl, ?_⟩
  decide

/-- C4 at a POST request with Content-Type "text/plain" on port 1709. -/
theorem C4_sql_response_witness :
    http.Header.Get ⟨[("Content-Type", ["text/plain"])]⟩ "Content-Type" ≠ "" ∧
    ((getHttpServer 1709 true).handleFunc (md5.New false) (http.ResponseWriter.fresh acceptAll)
        { Method := "POST", URL := "/", Header := ⟨[("Content-Type", ["text/plain"])]⟩,
          Body := bytes "ignored" }).w.response.header.Values "Content-Type" =
      ["application/sql"] :=
  ⟨by decide,
   (C4_sql_response 1709 acceptAll
      { Method := "POST", URL := "/", Header := ⟨[("Content-Type", ["text/plain"])]⟩,
        Body := bytes "ignored" }
      rfl (by decide) (fun _ => rfl)).2.2.2.2.2.1⟩

/-- C5: when the handler answers 200, X-Import-Md5 has exactly one value, the
standard padded base64 text of the MD5 digest of the body written; and for
every payload getMd5 returns (outside FIPS 140-only mode), without error, the base64 text of the MD5
digest of the payload, which has 24 characters and decodes to the 16 bytes
of the digest. -/
theorem C5_md5_header (t : List UInt8 → Int × Option String) (req : http.Request)
    (contents : inMemContents) (serveSql : Bool) :
    ((serveContents (md5.New false) (http.ResponseWriter.fresh t) req contents serveSql).w.response.code =
          some 200 →
        (serveContents (md5.New false) (http.ResponseWriter.fresh t) req contents
            serveSql).w.response.header.Values "X-Import-Md5" =
          [base64.EncodeToString (md5.Sum
            (serveContents (md5.New false) (http.ResponseWriter.fresh t) req contents
              serveSql).w.response.body)]) ∧
      contents.getMd5 (md5.New false) =
        Except.ok (base64.EncodeToString (md5.Sum contents.contents), none) ∧
      (base64.EncodeToString (md5.Sum contents.contents)).length = 24 ∧
      base64.DecodeString (base64.EncodeToString (md5.Sum contents.contents)) =
        some (md5.Sum contents.contents) ∧
      (md5.Sum contents.contents).length = 16 := by
  refine ⟨?_, getMd5_md5New contents, ?_, ?_, md5_Sum_length _⟩
  · intro h200
    by_cases hm : req.Method = "POST"
    · by_cases hct : req.Header.Get "Content-Type" = ""
      · rw [serveContents_no_content_type _ t req contents serveSql hm hct] at h200
        simp [http.ResponseWriter.response] at h200
      · rw [serveContents_ok (md5.New false) t req contents serveSql _ hm hct (getMd5_md5New contents)]
        cases serveSql <;>
          simp [http.ResponseWriter.response, http.Header.Values, http.Header.lookup,
            canonical_names.2.2.2.1, List.lookup]
    · rw [serveContents_not_post _ t req contents serveSql hm] at h200
      simp [http.ResponseWriter.response] at h200
  · show (base64.encode (md5.Sum contents.contents)).length = 24
    rw [base64_encode_length, md5_Sum_length]
  · show base64.decode (base64.encode (md5.Sum contents.contents)) = _
    exact base64_decode_encode _

/-- C5 at a POST request in CSV mode. -/
theorem C5_md5_header_witness :
    (serveContents (md5.New false) (http.ResponseWriter.fresh acceptAll)
        { Method := "POST", URL := "/", Header := ⟨[("Content-Type", ["text/csv"])]⟩, Body := [] }
        newCsvContents false).w.response.code = some 200 ∧
    (serveContents (md5.New false) (http.ResponseWriter.fresh acceptAll)
        { Method := "POST", URL := "/", Header := ⟨[("Content-Type", ["text/csv"])]⟩, Body := [] }
        newCsvContents false).w.response.header.Values "X-Import-Md5" =
      [base64.EncodeToString (md5.Sum
        (serveContents (md5.New false) (http.ResponseWriter.fresh acceptAll)
          { Method := "POST", URL := "/", Header := ⟨[("Content-Type", ["text/csv"])]⟩,
            Body := [] }
          newCsvContents false).w.response.body)] :=
  have h200 : (serveContents (md5.New false) (http.ResponseWriter.fresh acceptAll)
        { Method := "POST", URL := "/", Header := ⟨[("Content-Type", ["text/csv"])]⟩, Body := [] }
        newCsvContents false).w.response.code = some 200 :=
    congrArg http.Response.code (handleFunc_csv 1709 acceptAll
      { Method := "POST", URL := "/", Header := ⟨[("Content-Type", ["text/csv"])]⟩, Body := [] }
      rfl (by decide))
  ⟨h200,
   (C5_md5_header acceptAll
      { Method := "POST", URL := "/", Header := ⟨[("Content-Type", ["text/csv"])]⟩, Body := [] }
      newCsvContents false).1 h200⟩

/-- C7, as stated, fails on the request path: of two POST requests with the
same non-empty Content-Type header, served in the same mode, the one to
"/" is answered 200 by the handler and the one to "//x" is answered 301
by the mux, without the handler running. -/
theorem C7_counterexample :
    postCsv.Method = "POST" ∧ postUnclean.Method = "POST" ∧
      postCsv.Header.Get "Content-Type" ≠ "" ∧ postUnclean.Header.Get "Content-Type" ≠ "" ∧
      postCsv.Header = postUnclean.Header ∧ postCsv.Body = postUnclean.Body ∧
      ((getHttpServer 1709 false).Handler (md5.New false) (http.ResponseWriter.fresh acceptAll)
        postCsv).code = some 200 ∧
      ((getHttpServer 1709 false).Handler (md5.New false) (http.ResponseWriter.fresh acceptAll)
        postUnclean).code = some 301 ∧
      ((getHttpServer 1709 false).Handler (md5.New false) (http.ResponseWriter.fresh acceptAll)
        postUnclean).handled = none := by
  have h := handleFunc_csv 1709 acceptAll postCsv rfl (by decide)
  have hroute : (getHttpServer 1709 false).Handler (md5.New false)
      (http.ResponseWriter.fresh acceptAll) postCsv =
      Served.byHandler ((getHttpServer 1709 false).handleFunc (md5.New false)
        (http.ResponseWriter.fresh acceptAll) postCsv) := rfl
  have hmux : (getHttpServer 1709 false).Handler (md5.New false)
      (http.ResponseWriter.fresh acceptAll) postUnclean = Served.byMux 301 := rfl
  refine ⟨rfl, rfl, by decide, by decide, rfl, rfl, ?_, ?_, ?_⟩
  · rw [hroute]
    exact congrArg http.Response.code h
  · rw [hmux]
    rfl
  · rw [hmux]
    rfl

/-- C7, amended: for a fixed mode the response of the registered handler
function is a function of "the method is POST" and "the first Content-Type
value is empty" alone, whatever the Content-Type values, other headers,
path and body are. Through the installed mux this holds for the requests
the mux passes on: two such requests that agree on both get the same
response; a POST request is passed on exactly when its path is in clean
form (and its request target is not "*"), and one whose path is not clean
is answered 301 by the mux without the handler running. -/
theorem C7_noninterference (md5New : Hash) (srv : Server)
    (t1 t2 : List UInt8 → Int × Option String) (r1 r2 : http.Request)
    (hm : r1.Method = "POST" ↔ r2.Method = "POST")
    (hc : r1.Header.Get "Content-Type" = "" ↔ r2.Header.Get "Content-Type" = "") :
    (srv.handleFunc md5New (http.ResponseWriter.fresh t1) r1).w.response =
        (srv.handleFunc md5New (http.ResponseWriter.fresh t2) r2).w.response ∧
      (r1.RequestURI ≠ "*" → r2.RequestURI ≠ "*" →
        srv.findHandler r1 = Route.registered → srv.findHandler r2 = Route.registered →
        ∃ o1 o2,
          srv.Handler md5New (http.ResponseWriter.fresh t1) r1 = Served.byHandler o1 ∧
          srv.Handler md5New (http.ResponseWriter.fresh t2) r2 = Served.byHandler o2 ∧
          o1.w.response = o2.w.response) ∧
      (r1.Method = "POST" →
        (srv.findHandler r1 = Route.registered ↔ http.cleanPath r1.URL = r1.URL)) ∧
      (r1.Method = "POST" → http.cleanPath r1.URL ≠ r1.URL →
        srv.Handler md5New (http.ResponseWriter.fresh t1) r1 = Served.byMux 400 ∨
        srv.Handler md5New (http.ResponseWriter.fresh t1) r1 = Served.byMux 301) ∧
      (r1.Method = "POST" → r1.RequestURI ≠ "*" → http.cleanPath r1.URL ≠ r1.URL →
        srv.Handler md5New (http.ResponseWriter.fresh t1) r1 = Served.byMux 301) := by
  have hresp : (srv.handleFunc md5New (http.ResponseWriter.fresh t1) r1).w.response =
      (srv.handleFunc md5New (http.ResponseWriter.fresh t2) r2).w.response :=
    serveContents_response_congr md5New t1 t2 r1 r2 _ _ hm hc
  have hconnect : r1.Method = "POST" → ¬ r1.Method = "CONNECT" := by
    intro h1 h2
    rw [h1] at h2
    exact absurd h2 (by decide)
  refine ⟨hresp, ?_, ?_, ?_, ?_⟩
  · intro hu1 hu2 hf1 hf2
    refine ⟨_, _, ?_, ?_, hresp⟩
    · simp [Server.Handler, hu1, hf1]
    · simp [Server.Handler, hu2, hf2]
  · intro h1
    have hn := hconnect h1
    by_cases hp : http.cleanPath r1.URL = r1.URL <;> simp [Server.findHandler, hn, hp]
  · intro h1 hp
    have hn := hconnect h1
    by_cases hu : r1.RequestURI = "*"
    · left
      simp [Server.Handler, hu, http.StatusBadRequest]
    · right
      simp [Server.Handler, hu, Server.findHandler, hn, hp, http.StatusMovedPermanently]
  · intro h1 hu hp
    have hn := hconnect h1
    simp [Server.Handler, hu, Server.findHandler, hn, hp, http.StatusMovedPermanently]

/-- C7, amended, at two POST requests that differ in content type, other
headers, path and body. -/
theorem C7_noninterference_witness :
    (postCsv.Method = "POST" ↔ postJson.Method = "POST") ∧
    (postCsv.Header.Get "Content-Type" = "" ↔ postJson.Header.Get "Content-Type" = "") ∧
    ((getHttpServer 1709 true).handleFunc (md5.New false) (http.ResponseWriter.fresh acceptAll)
        postCsv).w.response =
      ((getHttpServer 1709 true).handleFunc (md5.New false) (http.ResponseWriter.fresh acceptAll)
        postJson).w.response :=
  ⟨by decide, by decide,
   (C7_noninterference (md5.New false) (getHttpServer 1709 true) acceptAll acceptAll postCsv
      postJson (by decide) (by decide)).1⟩

/-- C8: Len is the number of bytes ReadAll returns, and ReadAll returns the
whole payload; outside FIPS 140-only mode, when the handler answers 200 it panics exactly when the
Write of the payload returns an error or a byte count other than the
payload length; on a writer that takes all bytes it never panics; and it
never panics when it answers 400. -/
theorem C8_panic_iff_broken_transport (t : List UInt8 → Int × Option String)
    (req : http.Request) (contents : inMemContents) (serveSql : Bool) :
    (contents.Len = (contents.ReadAll.length : Int) ∧ contents.ReadAll = contents.contents) ∧
      ((serveContents (md5.New false) (http.ResponseWriter.fresh t) req contents serveSql).w.response.code =
          some 200 →
        ((serveContents (md5.New false) (http.ResponseWriter.fresh t) req contents serveSql).panicked ≠
            none ↔
          (t contents.ReadAll).2 ≠ none ∨
            (t contents.ReadAll).1 ≠ (contents.ReadAll.length : Int))) ∧
      ((∀ b, t b = ((b.length : Int), none)) →
        (serveContents (md5.New false) (http.ResponseWriter.fresh t) req contents serveSql).panicked =
          none) ∧
      ((serveContents (md5.New false) (http.ResponseWriter.fresh t) req contents serveSql).w.response.code =
          some 400 →
        (serveContents (md5.New false) (http.ResponseWriter.fresh t) req contents serveSql).panicked =
          none) := by
  refine ⟨⟨rfl, rfl⟩, ?_⟩
  by_cases hm : req.Method = "POST"
  · by_cases hct : req.Header.Get "Content-Type" = ""
    · rw [serveContents_no_content_type _ t req contents serveSql hm hct]
      simp [http.ResponseWriter.response]
    · rw [serveContents_ok (md5.New false) t req contents serveSql _ hm hct (getMd5_md5New contents)]
      simp only [http.ResponseWriter.response, inMemContents.ReadAll, inMemContents.Len]
      refine ⟨fun _ => ?_, fun ht => ?_, fun h => ?_⟩
      · rcases t contents.contents with ⟨n, _ | err⟩
        · by_cases hn : n = (contents.contents.length : Int) <;> simp [hn]
        · simp
      · simp [ht]
      · simp at h
  · rw [serveContents_not_post _ t req contents serveSql hm]
    simp [http.ResponseWriter.response]

/-- C8 at a transport that takes one byte less than it is given: the handler
answers 200 and panics. -/
theorem C8_panic_iff_broken_transport_witness :
    (serveContents (md5.New false)
        (http.ResponseWriter.fresh (fun b => ((b.length : Int) - 1, none))) postCsv newCsvContents
        false).w.response.code = some 200 ∧
    (serveContents (md5.New false)
        (http.ResponseWriter.fresh (fun b => ((b.length : Int) - 1, none))) postCsv newCsvContents
        false).panicked ≠ none :=
  have h200 : (serveContents (md5.New false)
        (http.ResponseWriter.fresh (fun b => ((b.length : Int) - 1, none))) postCsv newCsvContents
        false).w.response.code = some 200 :=
    congrArg http.Response.code
      (handleFunc_csv 1709 (fun b => ((b.length : Int) - 1, none)) postCsv rfl (by decide))
  ⟨h200,
   ((C8_panic_iff_broken_transport (fun b => ((b.length : Int) - 1, none)) postCsv newCsvContents
      false).2.1 h200).2 (Or.inr (by decide))⟩

/-- C9, as stated, fails: in FIPS 140-only mode getMd5 returns an error on
the CSV fixture and panics on the empty payload, and a POST request with a
content type is answered 500. -/
theorem C9_counterexample :
    newCsvContents.getMd5 (md5.New true) = Except.ok ("", some md5.fipsError) ∧
      ({ mu := Mutex.unlocked, contents := [] } : inMemContents).getMd5 (md5.New true) =
        Except.error md5.fipsError ∧
      ((getHttpServer 1709 false).handleFunc (md5.New true) (http.ResponseWriter.fresh acceptAll)
        postCsv).w.response.code = some 500 := by
  have hne : newCsvContents.contents ≠ [] := by decide
  have hg := getMd5_fips newCsvContents hne
  refine ⟨hg, rfl, ?_⟩
  have h := serveContents_checksum_error (md5.New true) acceptAll postCsv newCsvContents false
    rfl (by decide) _ _ hg
  simp only [Server.handleFunc, getHttpServer, Bool.false_eq_true, if_false, h]
  rfl

/-- C9, amended: when the hash does not fail (its Write returns no error and
its Sum does not panic, as is the case for crypto/md5 outside FIPS 140-only
mode), getMd5 returns no error on any payload, the empty one included, and
the handler answers 400 or 200, never 500. In FIPS 140-only mode getMd5
returns the error of Write on every non-empty payload, and a POST request
with a content type is then answered 500. -/
theorem C9_checksum_no_failure (md5New : Hash) (t : List UInt8 → Int × Option String)
    (req : http.Request) (contents : inMemContents) (serveSql : Bool)
    (hw : ∀ p, md5New.writeErr p = none) (hs : md5New.sumPanic = none) :
    (∃ m, contents.getMd5 md5New = Except.ok (m, none)) ∧
      (∃ m, ({ mu := Mutex.unlocked, contents := [] } : inMemContents).getMd5 md5New =
        Except.ok (m, none)) ∧
      ((serveContents md5New (http.ResponseWriter.fresh t) req contents serveSql).w.response.code =
          some 400 ∨
        (serveContents md5New (http.ResponseWriter.fresh t) req contents
          serveSql).w.response.code = some 200) ∧
      (serveContents md5New (http.ResponseWriter.fresh t) req contents serveSql).w.response.code ≠
        some 500 ∧
      ((∀ p, (md5.New false).writeErr p = none) ∧ (md5.New false).sumPanic = none) ∧
      (contents.contents ≠ [] →
        contents.getMd5 (md5.New true) = Except.ok ("", some md5.fipsError)) ∧
      (contents.contents ≠ [] → req.Method = "POST" → req.Header.Get "Content-Type" ≠ "" →
        (serveContents (md5.New true) (http.ResponseWriter.fresh t) req contents
          serveSql).w.response.code = some 500) := by
  have hg := getMd5_of_no_failure md5New contents hw hs
  have hcode :
      ((serveContents md5New (http.ResponseWriter.fresh t) req contents
            serveSql).w.response.code = some 400 ∨
          (serveContents md5New (http.ResponseWriter.fresh t) req contents
            serveSql).w.response.code = some 200) ∧
        (serveContents md5New (http.ResponseWriter.fresh t) req contents
          serveSql).w.response.code ≠ some 500 := by
    by_cases hm : req.Method = "POST"
    · by_cases hct : req.Header.Get "Content-Type" = ""
      · rw [serveContents_no_content_type _ t req contents serveSql hm hct]
        simp [http.ResponseWriter.response]
      · rw [serveContents_ok md5New t req contents serveSql _ hm hct hg]
        simp [http.ResponseWriter.response]
    · rw [serveContents_not_post _ t req contents serveSql hm]
      simp [http.ResponseWriter.response]
  refine ⟨⟨_, hg⟩, ⟨_, getMd5_of_no_failure md5New _ hw hs⟩, hcode.1, hcode.2,
    ⟨fun _ => rfl, rfl⟩, getMd5_fips contents, ?_⟩
  · intro hne hm hct
    rw [serveContents_checksum_error (md5.New true) t req contents serveSql hm hct _ _
      (getMd5_fips contents hne)]
    rfl

/-- C9, amended, at the hash of crypto/md5 outside FIPS 140-only mode and a
POST request in CSV mode. -/
theorem C9_checksum_no_failure_witness :
    ((∀ p, (md5.New false).writeErr p = none) ∧ (md5.New false).sumPanic = none) ∧
    (serveContents (md5.New false) (http.ResponseWriter.fresh acceptAll) postCsv newCsvContents
        false).w.response.code ≠ some 500 :=
  ⟨⟨fun _ => rfl, rfl⟩,
   (C9_checksum_no_failure (md5.New false) acceptAll postCsv newCsvContents false
      (fun _ => rfl) rfl).2.2.2.1⟩

/-- C10 at the failing input: in FIPS 140-only mode a POST request with a
content type, CSV mode, is answered 500 with an empty body, and the
response carries Content-Length "42", added before the checksum was
computed; the mux passes the request on, so this is the answer of the
installed handler too. -/
theorem C10_content_length_on_500 :
    ((getHttpServer 1709 false).handleFunc (md5.New true) (http.ResponseWriter.fresh acceptAll)
        postCsv).w.response =
        { code := some 500, header := ⟨[("Content-Length", ["42"])]⟩, body := [] } ∧
      ((getHttpServer 1709 false).handleFunc (md5.New true) (http.ResponseWriter.fresh acceptAll)
        postCsv).w.response.header.Values "Content-Length" = ["42"] ∧
      ((getHttpServer 1709 false).Handler (md5.New true) (http.ResponseWriter.fresh acceptAll)
        postCsv).code = some 500 := by
  have hne : newCsvContents.contents ≠ [] := by decide
  have h := serveContents_checksum_error (md5.New true) acceptAll postCsv newCsvContents false
    rfl (by decide) _ _ (getMd5_fips newCsvContents hne)
  have hresp : ((getHttpServer 1709 false).handleFunc (md5.New true)
      (http.ResponseWriter.fresh acceptAll) postCsv).w.response =
      { code := some 500, header := ⟨[("Content-Length", ["42"])]⟩, body := [] } := by
    simp only [Server.handleFunc, getHttpServer, Bool.false_eq_true, if_false, h,
      http.ResponseWriter.response, csv_length]
    decide
  have hroute : (getHttpServer 1709 false).Handler (md5.New true)
      (http.ResponseWriter.fresh acceptAll) postCsv =
      Served.byHandler ((getHttpServer 1709 false).handleFunc (md5.New true)
        (http.ResponseWriter.fresh acceptAll) postCsv) := rfl
  refine ⟨hresp, ?_, ?_⟩
  · rw [hresp]
    decide
  · rw [hroute]
    exact congrArg http.Response.code hresp
